import Mathlib

/-
Verification of the Drawable scene-graph node of the Card-maker repository
(src/assets/js/layout/drawing/cardmaker.drawable-1.0.0.js), a shallow
embedding in Lean 4.  The Drawable state is explicit; every method becomes
a function from the old state to the new state.  JavaScript exceptions are
modelled by Except, with the error value carrying the state at throw time
(JS mutations performed before a throw persist in the object).
-/

namespace Cardmaker

/-- Modelled from the spec: the rectangle value type cardmaker.Bounds
(missing from src); get/set for minX, minY, width, height, constructible
with default zero values. -/
structure Bounds where
  minX : Int
  minY : Int
  width : Int
  height : Int
deriving DecidableEq

def Bounds.getMinX (b : Bounds) : Int := b.minX

def Bounds.getMinY (b : Bounds) : Int := b.minY

def Bounds.getWidth (b : Bounds) : Int := b.width

def Bounds.getHeight (b : Bounds) : Int := b.height

def Bounds.setMinX (b : Bounds) (x : Int) : Bounds := { b with minX := x }

def Bounds.setMinY (b : Bounds) (y : Int) : Bounds := { b with minY := y }

def Bounds.setWidth (b : Bounds) (w : Int) : Bounds := { b with width := w }

def Bounds.setHeight (b : Bounds) (h : Int) : Bounds := { b with height := h }

/-- Modelled from the spec: the point value type cardmaker.Point (missing
from src); immutable, with add and subtract returning new points and a
constructor from the origin of a rectangle. -/
structure Point where
  x : Int
  y : Int
deriving DecidableEq

def Point.add (p : Point) (dx dy : Int) : Point := Point.mk (p.x + dx) (p.y + dy)

def Point.subtract (p : Point) (dx dy : Int) : Point := Point.mk (p.x - dx) (p.y - dy)

def Point.getX (p : Point) : Int := p.x

def Point.getY (p : Point) : Int := p.y

def Point.createFromBounds (b : Bounds) : Point := Point.mk b.minX b.minY

/-- Modelled from the spec: the reentrancy lock cardmaker.Lock (missing
from src); a non-blocking held/free flag with tryLock, unlock and an
isLocked query. -/
structure Lock where
  held : Bool
deriving DecidableEq

def Lock.tryLock (l : Lock) : Bool × Lock :=
  if l.held then (false, l) else (true, Lock.mk true)

def Lock.unlock (_ : Lock) : Lock := Lock.mk false

def Lock.isLocked (l : Lock) : Bool := l.held

/-- Modelled from the spec: the transform value type cardmaker.Matrix
(missing from src); the core tracks it only for change notification, so
its payload is left abstract as a list of entries. -/
structure Matrix where
  entries : List Int
deriving DecidableEq

/-- The InvalidateEvent of the source (lines 11 to 42): an event type tag
together with a reference to the Drawable that became invalid.  Object
references are modelled by numeric identities. -/
structure InvalidateEvent where
  type : String
  target : Nat
deriving DecidableEq

/-- A JavaScript value passed to setParent: null, a DrawableContainer
instance (identified by its object identity), or any other value. -/
inductive ParentVal where
  | null : ParentVal
  | container (id : Nat) : ParentVal
  | other : ParentVal
deriving DecidableEq

/-- The instanceof cardmaker.DrawableContainer test of setParent. -/
def ParentVal.isContainer : ParentVal → Bool
  | ParentVal.container _ => true
  | _ => false

/-- The canvas argument of draw; opaque to the core, only handed to the
paint hook. -/
structure Canvas where
  id : Nat
deriving DecidableEq

/-- The state of one Drawable (source lines 55 to 117): bounds rectangle,
parent reference, transform, reentrancy lock and validity flag.  The id
field models the JavaScript object identity, and events is the log of
events dispatched through the inherited MVCObject (modelled from the
spec: dispatch is a synchronous in-order fan-out, so the emitted events
form a list). -/
structure Drawable where
  id : Nat
  bounds : Bounds
  parent : ParentVal
  matrix : Matrix
  lock : Lock
  valid : Bool
  events : List InvalidateEvent
deriving DecidableEq

/-- The Drawable constructor: default zero bounds, no parent, a fresh
matrix, a free lock, valid initially false, nothing dispatched yet. -/
def Drawable.new (id : Nat) : Drawable :=
  Drawable.mk id (Bounds.mk 0 0 0 0) ParentVal.null (Matrix.mk []) (Lock.mk false) false []

/-- isValid (source lines 173 to 175). -/
def Drawable.isValid (d : Drawable) : Bool := d.valid

/-- The inherited dispatch of MVCObject, modelled from the spec as
appending the event to the synchronous dispatch log. -/
def Drawable.dispatch (d : Drawable) (e : InvalidateEvent) : Drawable :=
  { d with events := d.events ++ [e] }

/-- invalidate (source lines 163 to 166): set valid to false, then
dispatch an InvalidateEvent of type invalidate whose target is this. -/
def Drawable.invalidate (d : Drawable) : Drawable :=
  Drawable.dispatch { d with valid := false } (InvalidateEvent.mk "invalidate" d.id)

/-- onPropertyChange (source lines 355 to 359), the change handler the
constructor registers on the transform: invalidate only when the lock is
not held. -/
def Drawable.onPropertyChange (d : Drawable) : Drawable :=
  if !(d.lock.isLocked) then d.invalidate else d

/-- A paint hook: the onDraw body a subclass supplies.  It receives the
canvas and the state of the node (lock already held) and either returns
the mutated state or throws, the error carrying the state at throw
time. -/
def PaintHook : Type := Canvas → Drawable → Except (String × Drawable) Drawable

/-- The unoverridden base onDraw (source lines 153 to 155): throws
without touching the state. -/
def Drawable.onDraw : PaintHook :=
  fun _ d => Except.error ("This method must be implemented by a subclass.", d)

/-- draw (source lines 134 to 141): if tryLock succeeds, run the paint
hook and unlock; in any case that reaches the end, set valid to true as
the final step.  A throw inside the hook propagates before the unlock
and before the valid assignment. -/
def Drawable.draw (d : Drawable) (hook : PaintHook) (canvas : Canvas) :
    Except (String × Drawable) Drawable :=
  let acq := d.lock.tryLock
  if acq.1 then
    match hook canvas { d with lock := acq.2 } with
    | Except.error e => Except.error e
    | Except.ok d2 => Except.ok { d2 with lock := d2.lock.unlock, valid := true }
  else
    Except.ok { d with valid := true }

/-- setParent (source lines 184 to 190): a TypeError when the argument is
neither a DrawableContainer nor null, otherwise an unconditional
replacement of the parent reference.  The error carries the unchanged
state. -/
def Drawable.setParent (d : Drawable) (p : ParentVal) :
    Except (String × Drawable) Drawable :=
  if !(p.isContainer) && !(p == ParentVal.null) then
    Except.error ("Drawable expects parent to be a cardmaker.DrawableContainer object", d)
  else
    Except.ok { d with parent := p }

/-- getParent (source lines 198 to 200). -/
def Drawable.getParent (d : Drawable) : ParentVal := d.parent

/-- setX (source lines 243 to 245). -/
def Drawable.setX (d : Drawable) (x : Int) : Drawable :=
  { d with bounds := d.bounds.setMinX x }

/-- getX (source lines 253 to 255). -/
def Drawable.getX (d : Drawable) : Int := d.bounds.getMinX

/-- setY (source lines 263 to 265). -/
def Drawable.setY (d : Drawable) (y : Int) : Drawable :=
  { d with bounds := d.bounds.setMinY y }

/-- getY (source lines 273 to 275). -/
def Drawable.getY (d : Drawable) : Int := d.bounds.getMinY

/-- setWidth (source lines 282 to 284). -/
def Drawable.setWidth (d : Drawable) (w : Int) : Drawable :=
  { d with bounds := d.bounds.setWidth w }

/-- getWidth (source lines 291 to 293). -/
def Drawable.getWidth (d : Drawable) : Int := d.bounds.getWidth

/-- setHeight (source lines 300 to 302). -/
def Drawable.setHeight (d : Drawable) (h : Int) : Drawable :=
  { d with bounds := d.bounds.setHeight h }

/-- getHeight (source lines 309 to 311). -/
def Drawable.getHeight (d : Drawable) : Int := d.bounds.getHeight

/-- The while loop of localToGlobal (source lines 320 to 328) on an
acyclic parent chain, given as the list of ancestor bounds from the
immediate parent upward: each iteration adds the origin of the walked
ancestor to the point. -/
def localToGlobalChain : List Bounds → Point → Point
  | [], p => p
  | b :: rest, p => localToGlobalChain rest (p.add b.getMinX b.getMinY)

/-- The while loop of globalToLocal (source lines 337 to 345) on an
acyclic parent chain: mirror of localToGlobalChain, subtracting each
ancestor origin over the same walk. -/
def globalToLocalChain : List Bounds → Point → Point
  | [], p => p
  | b :: rest, p => globalToLocalChain rest (p.subtract b.getMinX b.getMinY)

/-- A drawable node together with its (acyclic) ancestor chain, the data
the coordinate conversion walk of the source traverses through parent
references. -/
structure SceneNode where
  node : Drawable
  ancestors : List Bounds

/-- localToGlobal of a node (source lines 320 to 328). -/
def SceneNode.localToGlobal (n : SceneNode) (p : Point) : Point :=
  localToGlobalChain n.ancestors p

/-- globalToLocal of a node (source lines 337 to 345). -/
def SceneNode.globalToLocal (n : SceneNode) (p : Point) : Point :=
  globalToLocalChain n.ancestors p

/-- getLocalBounds (source lines 225 to 235): a fresh rectangle filled
from the local x, y, width and height. -/
def SceneNode.getLocalBounds (n : SceneNode) : Bounds :=
  ((((Bounds.mk 0 0 0 0).setMinX n.node.getX).setMinY
      n.node.getY).setWidth n.node.getWidth).setHeight n.node.getHeight

/-- getBounds (source lines 207 to 215): take the local bounds, convert
their origin through localToGlobal, overwrite minX and minY with the
converted point. -/
def SceneNode.getBounds (n : SceneNode) : Bounds :=
  let bounds := n.getLocalBounds
  let point := n.localToGlobal (Point.createFromBounds bounds)
  (bounds.setMinX point.getX).setMinY point.getY

/-- A heap of parent references, for parent chains that setParent can
build with no cycle check: parentOf gives the parent node identity (none
when the walked reference is null or not a drawable), boundsOf the
bounds of each node. -/
structure Heap where
  parentOf : Nat → Option Nat
  boundsOf : Nat → Bounds

/-- The coordinate-conversion while loop of the source run on a Heap
with explicit fuel; step is Point.add for localToGlobal and
Point.subtract for globalToLocal.  A none result means the loop did not
exit within the given fuel. -/
def Heap.convertFuel (H : Heap) (step : Point → Int → Int → Point) :
    Option Nat → Point → Nat → Option Point
  | Option.none, p, _ => Option.some p
  | Option.some _, _, 0 => Option.none
  | Option.some i, p, n + 1 =>
      H.convertFuel step (H.parentOf i)
        (step p (H.boundsOf i).getMinX (H.boundsOf i).getMinY) n

/-- The localToGlobal walk on a Heap, with fuel. -/
def Heap.localToGlobalFuel (H : Heap) : Option Nat → Point → Nat → Option Point :=
  H.convertFuel Point.add

/-- The globalToLocal walk on a Heap, with fuel. -/
def Heap.globalToLocalFuel (H : Heap) : Option Nat → Point → Nat → Option Point :=
  H.convertFuel Point.subtract

/-- C1: every call to draw that returns normally, for any node, any paint
hook and any canvas, ends with the node valid: isValid is true on the
returned state, whether or not the lock was acquired and the hook ran,
because the assignment of valid to true is the final step of draw. -/
theorem draw_ends_valid (d : Drawable) (hook : PaintHook) (canvas : Canvas)
    (d2 : Drawable) (h : d.draw hook canvas = Except.ok d2) :
    d2.isValid = true := by
  unfold Drawable.draw Lock.tryLock at h
  by_cases hl : d.lock.held
  · simp [hl] at h
    subst h
    rfl
  · simp [hl] at h
    cases hr : hook canvas { d with lock := Lock.mk true } with
    | error e => rw [hr] at h; cases h
    | ok d3 =>
        rw [hr] at h
        simp at h
        subst h
        rfl

/-- Witness for C1 at a freshly constructed node and a hook that returns
its state unchanged. -/
theorem draw_ends_valid_witness :
    ({ Drawable.new 0 with valid := true } : Drawable).isValid = true :=
  draw_ends_valid (Drawable.new 0) (fun _ s => Except.ok s) (Canvas.mk 0)
    { Drawable.new 0 with valid := true } rfl

/-- C2: a re-entrant draw on a node whose lock is held by the outer call
skips the paint hook (the result is the same for every inner hook, even a
throwing one), raises no exception, and after both calls return the node
is valid and the lock is free. -/
theorem draw_reentrant (d : Drawable) (inner : PaintHook) (canvas : Canvas)
    (hfree : d.lock.isLocked = false) :
    d.draw (fun c s => s.draw inner c) canvas
      = Except.ok { d with lock := Lock.mk false, valid := true }
  ∧ ({ d with lock := Lock.mk false, valid := true } : Drawable).isValid = true
  ∧ ({ d with lock := Lock.mk false, valid := true } : Drawable).lock.isLocked = false := by
  have hl : d.lock.held = false := hfree
  unfold Drawable.draw Lock.tryLock Lock.unlock Lock.isLocked Drawable.isValid
  simp [hl]

/-- Witness for C2 at a freshly constructed node, with the throwing base
hook as the inner hook: the nested call never reaches it. -/
theorem draw_reentrant_witness :
    (Drawable.new 0).draw (fun c s => s.draw Drawable.onDraw c) (Canvas.mk 0)
      = Except.ok { Drawable.new 0 with lock := Lock.mk false, valid := true }
  ∧ ({ Drawable.new 0 with lock := Lock.mk false, valid := true } : Drawable).isValid = true
  ∧ ({ Drawable.new 0 with lock := Lock.mk false, valid := true } : Drawable).lock.isLocked
      = false :=
  draw_reentrant (Drawable.new 0) Drawable.onDraw (Canvas.mk 0) rfl

/-- C3: a transform change notification received while the lock is held
leaves the node completely unchanged (no valid change, no dispatch); the
same notification with the lock free calls invalidate and dispatches
exactly one InvalidateEvent targeting the node. -/
theorem onPropertyChange_locking (d : Drawable) :
    (d.lock.isLocked = true → d.onPropertyChange = d)
  ∧ (d.lock.isLocked = false →
        d.onPropertyChange = d.invalidate
      ∧ d.onPropertyChange.isValid = false
      ∧ d.onPropertyChange.events = d.events ++ [InvalidateEvent.mk "invalidate" d.id]) := by
  unfold Drawable.onPropertyChange Lock.isLocked
  constructor
  · intro h
    simp [h]
  · intro h
    simp [h, Drawable.invalidate, Drawable.dispatch, Drawable.isValid]

/-- Witness for C3: a locked node is left unchanged, a free node is
invalidated. -/
theorem onPropertyChange_locking_witness :
    ({ Drawable.new 0 with lock := Lock.mk true } : Drawable).onPropertyChange
      = { Drawable.new 0 with lock := Lock.mk true }
  ∧ (Drawable.new 1).onPropertyChange = (Drawable.new 1).invalidate :=
  ⟨(onPropertyChange_locking { Drawable.new 0 with lock := Lock.mk true }).1 rfl,
   ((onPropertyChange_locking (Drawable.new 1)).2 rfl).1⟩

/-- C4: invalidate is idempotent on state and repeatable on events: each
call leaves isValid false and appends one InvalidateEvent of type
invalidate whose target is the node; two consecutive calls leave isValid
false and the log extended by two such events with the same target. -/
theorem invalidate_idempotent_republishes (d : Drawable) :
    d.invalidate.isValid = false
  ∧ d.invalidate.events = d.events ++ [InvalidateEvent.mk "invalidate" d.id]
  ∧ d.invalidate.invalidate.isValid = false
  ∧ d.invalidate.invalidate.events
      = d.events
          ++ [InvalidateEvent.mk "invalidate" d.id, InvalidateEvent.mk "invalidate" d.id] := by
  simp [Drawable.invalidate, Drawable.dispatch, Drawable.isValid]

/-- C9: the rectangle setters change only the corresponding bounds field;
valid, the event log, parent, lock and transform are untouched, so no
invalidation happens and no InvalidateEvent is dispatched. -/
theorem rect_setters_frame (d : Drawable) (v : Int) :
    d.setX v = { d with bounds := { d.bounds with minX := v } }
  ∧ d.setY v = { d with bounds := { d.bounds with minY := v } }
  ∧ d.setWidth v = { d with bounds := { d.bounds with width := v } }
  ∧ d.setHeight v = { d with bounds := { d.bounds with height := v } }
  ∧ (d.setX v).isValid = d.isValid ∧ (d.setX v).events = d.events
  ∧ (d.setY v).isValid = d.isValid ∧ (d.setY v).events = d.events
  ∧ (d.setWidth v).isValid = d.isValid ∧ (d.setWidth v).events = d.events
  ∧ (d.setHeight v).isValid = d.isValid ∧ (d.setHeight v).events = d.events
  ∧ (d.setX v).parent = d.parent ∧ (d.setX v).lock = d.lock ∧ (d.setX v).matrix = d.matrix
  ∧ (d.setY v).parent = d.parent ∧ (d.setY v).lock = d.lock ∧ (d.setY v).matrix = d.matrix
  ∧ (d.setWidth v).parent = d.parent ∧ (d.setWidth v).lock = d.lock
  ∧ (d.setWidth v).matrix = d.matrix
  ∧ (d.setHeight v).parent = d.parent ∧ (d.setHeight v).lock = d.lock
  ∧ (d.setHeight v).matrix = d.matrix :=
  ⟨rfl, rfl, rfl, rfl, rfl, rfl, rfl, rfl, rfl, rfl, rfl, rfl, rfl, rfl, rfl, rfl, rfl, rfl,
   rfl, rfl, rfl, rfl, rfl, rfl⟩

/-- The localToGlobal walk translates the point by the sum of the
ancestor origins. -/
theorem localToGlobalChain_eq (chain : List Bounds) (p : Point) :
    localToGlobalChain chain p
      = Point.mk (p.x + (chain.map Bounds.minX).sum) (p.y + (chain.map Bounds.minY).sum) := by
  induction chain generalizing p with
  | nil => cases p; simp [localToGlobalChain]
  | cons b rest ih =>
      simp only [localToGlobalChain, List.map_cons, List.sum_cons, ih, Point.add,
        Bounds.getMinX, Bounds.getMinY]
      simp only [Point.mk.injEq]
      omega

/-- The globalToLocal walk translates the point back by the same sum. -/
theorem globalToLocalChain_eq (chain : List Bounds) (p : Point) :
    globalToLocalChain chain p
      = Point.mk (p.x - (chain.map Bounds.minX).sum) (p.y - (chain.map Bounds.minY).sum) := by
  induction chain generalizing p with
  | nil => cases p; simp [globalToLocalChain]
  | cons b rest ih =>
      simp only [globalToLocalChain, List.map_cons, List.sum_cons, ih, Point.subtract,
        Bounds.getMinX, Bounds.getMinY]
      simp only [Point.mk.injEq]
      omega

/-- C5: coordinate round-trip: for every node, nested under any number of
ancestor levels with arbitrary integer offsets, and every point p,
globalToLocal applied to localToGlobal of p gives back exactly p. -/
theorem globalToLocal_localToGlobal_roundtrip (n : SceneNode) (p : Point) :
    n.globalToLocal (n.localToGlobal p) = p := by
  cases p
  simp only [SceneNode.globalToLocal, SceneNode.localToGlobal, localToGlobalChain_eq,
    globalToLocalChain_eq]
  simp only [Point.mk.injEq]
  omega

/-- C6: localToGlobal translates the point by the sum of the local
origins of all ancestors on the parent chain, the own origin excluded; a
parentless node returns the point unchanged; for node A at (10, 5) under
parentless B at (100, 50), localToGlobal of the origin is (100, 50) and
getBounds is the rectangle (110, 55) with the local width and height of
A. -/
theorem localToGlobal_translates_by_ancestors (n : SceneNode) (p : Point) (w h wb hb : Int) :
    n.localToGlobal p
      = Point.mk (p.x + (n.ancestors.map Bounds.minX).sum)
          (p.y + (n.ancestors.map Bounds.minY).sum)
  ∧ (n.ancestors = [] → n.localToGlobal p = p)
  ∧ (SceneNode.mk { Drawable.new 0 with bounds := Bounds.mk 10 5 w h }
        [Bounds.mk 100 50 wb hb]).localToGlobal (Point.mk 0 0) = Point.mk 100 50
  ∧ (SceneNode.mk { Drawable.new 0 with bounds := Bounds.mk 10 5 w h }
        [Bounds.mk 100 50 wb hb]).getBounds = Bounds.mk 110 55 w h := by
  refine ⟨localToGlobalChain_eq n.ancestors p, ?_, ?_, ?_⟩
  · intro hnil
    simp [SceneNode.localToGlobal, hnil, localToGlobalChain]
  · simp [SceneNode.localToGlobal, localToGlobalChain, Point.add, Bounds.getMinX, Bounds.getMinY]
  · simp [SceneNode.getBounds, SceneNode.getLocalBounds, SceneNode.localToGlobal,
      localToGlobalChain, Point.add, Point.createFromBounds, Point.getX, Point.getY,
      Bounds.getMinX, Bounds.getMinY, Bounds.setMinX, Bounds.setMinY, Bounds.setWidth,
      Bounds.setHeight, Bounds.getWidth, Bounds.getHeight, Drawable.getX, Drawable.getY,
      Drawable.getWidth, Drawable.getHeight, Drawable.new]

/-- Witness for C6 at a parentless node: the point comes back
unchanged. -/
theorem localToGlobal_translates_by_ancestors_witness :
    (SceneNode.mk (Drawable.new 0) []).localToGlobal (Point.mk 3 4) = Point.mk 3 4 :=
  (localToGlobal_translates_by_ancestors (SceneNode.mk (Drawable.new 0) [])
      (Point.mk 3 4) 0 0 0 0).2.1 rfl

/-- C8: setParent throws a TypeError on an argument that is neither null
nor a container, with the error carrying the unchanged state, so the
previous parent reference survives; a null or container argument replaces
the parent reference unconditionally. -/
theorem setParent_type_guard (d : Drawable) (p : ParentVal) :
    (p.isContainer = false → p ≠ ParentVal.null →
        d.setParent p
          = Except.error
              ("Drawable expects parent to be a cardmaker.DrawableContainer object", d)
      ∧ ∀ msg d2, d.setParent p = Except.error (msg, d2) → d2.getParent = d.getParent)
  ∧ ((p.isContainer = true ∨ p = ParentVal.null) →
        d.setParent p = Except.ok { d with parent := p }) := by
  constructor
  · intro hc hn
    have hb : (p == ParentVal.null) = false := by
      cases p <;> simp_all [ParentVal.isContainer]
    constructor
    · simp [Drawable.setParent, hc, hb]
    · intro msg d2 hmd
      simp [Drawable.setParent, hc, hb] at hmd
      rw [hmd.2]
  · intro hok
    cases hok with
    | inl hc => cases p <;> simp_all [Drawable.setParent, ParentVal.isContainer]
    | inr hn => subst hn; simp [Drawable.setParent]

/-- Witness for C8: a non-container, non-null argument fails with the
state unchanged; a container argument replaces the parent. -/
theorem setParent_type_guard_witness :
    ((Drawable.new 0).setParent ParentVal.other
        = Except.error
            ("Drawable expects parent to be a cardmaker.DrawableContainer object",
              Drawable.new 0))
  ∧ ((Drawable.new 0).setParent (ParentVal.container 7)
        = Except.ok { Drawable.new 0 with parent := ParentVal.container 7 }) :=
  ⟨((setParent_type_guard (Drawable.new 0) ParentVal.other).1 rfl (by decide)).1,
   (setParent_type_guard (Drawable.new 0) (ParentVal.container 7)).2 (Or.inl rfl)⟩

/-- C10: when the paint hook throws (here the unoverridden base onDraw),
draw propagates the error before unlocking and before setting valid: the
carried state has the lock held and valid still false; every later draw
on that state skips the hook yet sets valid to true, and a transform
change notification no longer invalidates. -/
theorem draw_throwing_hook (d : Drawable) (canvas : Canvas)
    (hfree : d.lock.isLocked = false) (hinv : d.isValid = false) :
    d.draw Drawable.onDraw canvas
      = Except.error ("This method must be implemented by a subclass.",
          { d with lock := Lock.mk true })
  ∧ ({ d with lock := Lock.mk true } : Drawable).lock.isLocked = true
  ∧ ({ d with lock := Lock.mk true } : Drawable).isValid = false
  ∧ (∀ (hook : PaintHook) (c : Canvas),
        ({ d with lock := Lock.mk true } : Drawable).draw hook c
          = Except.ok { d with lock := Lock.mk true, valid := true })
  ∧ ({ d with lock := Lock.mk true } : Drawable).onPropertyChange
      = { d with lock := Lock.mk true } := by
  have hl : d.lock.held = false := hfree
  have hv : d.valid = false := hinv
  refine ⟨?_, rfl, hv, ?_, ?_⟩
  · simp [Drawable.draw, Lock.tryLock, hl, Drawable.onDraw]
  · intro hook c
    simp [Drawable.draw, Lock.tryLock]
  · simp [Drawable.onPropertyChange, Lock.isLocked]

/-- Witness for C10 at a freshly constructed node (lock free, invalid)
drawn with the base hook. -/
theorem draw_throwing_hook_witness :
    (Drawable.new 0).draw Drawable.onDraw (Canvas.mk 0)
      = Except.error ("This method must be implemented by a subclass.",
          { Drawable.new 0 with lock := Lock.mk true }) :=
  (draw_throwing_hook (Drawable.new 0) (Canvas.mk 0) rfl rfl).1

/-- On a heap where node 0 is its own parent, the conversion walk started
at node 0 never exits, whatever the fuel and the point. -/
theorem convertFuel_self_loop (step : Point → Int → Int → Point) (b : Bounds) :
    ∀ (n : Nat) (p : Point),
      (Heap.mk (fun _ => Option.some 0) (fun _ => b)).convertFuel step
          (Option.some 0) p n = Option.none := by
  intro n
  induction n with
  | zero => intro p; rfl
  | succ k ih =>
      intro p
      show (Heap.mk (fun _ => Option.some 0) (fun _ => b)).convertFuel step
          (Option.some 0) (step p b.getMinX b.getMinY) k = Option.none
      exact ih _

/-- C7 counterexample: setParent performs no cycle check, so a container
can become its own parent; on the resulting cyclic chain neither the
localToGlobal walk nor the globalToLocal walk started at that node ever
terminates (no amount of fuel makes the loop exit). -/
theorem coordinate_walk_cycle_diverges :
    ((Drawable.new 0).setParent (ParentVal.container 0)
        = Except.ok { Drawable.new 0 with parent := ParentVal.container 0 })
  ∧ ¬ (∃ n r, (Heap.mk (fun _ => Option.some 0)
          (fun _ => Bounds.mk 1 2 3 4)).localToGlobalFuel
            (Option.some 0) (Point.mk 0 0) n = Option.some r)
  ∧ ¬ (∃ n r, (Heap.mk (fun _ => Option.some 0)
          (fun _ => Bounds.mk 1 2 3 4)).globalToLocalFuel
            (Option.some 0) (Point.mk 0 0) n = Option.some r) := by
  refine ⟨rfl, ?_, ?_⟩
  · rintro ⟨n, r, hr⟩
    rw [Heap.localToGlobalFuel, convertFuel_self_loop] at hr
    cases hr
  · rintro ⟨n, r, hr⟩
    rw [Heap.globalToLocalFuel, convertFuel_self_loop] at hr
    cases hr

/-- On a heap whose parent assignment strictly decreases a depth measure,
the conversion walk started at any node exits with some fuel. -/
theorem convertFuel_terminates (H : Heap) (step : Point → Int → Int → Point)
    (depth : Nat → Nat) (hd : ∀ i j, H.parentOf i = Option.some j → depth j < depth i) :
    ∀ (k i : Nat), depth i ≤ k → ∀ p,
      ∃ n r, H.convertFuel step (Option.some i) p n = Option.some r := by
  intro k
  induction k with
  | zero =>
      intro i hk p
      cases hpi : H.parentOf i with
      | none =>
          refine ⟨1, step p (H.boundsOf i).getMinX (H.boundsOf i).getMinY, ?_⟩
          show H.convertFuel step (H.parentOf i)
              (step p (H.boundsOf i).getMinX (H.boundsOf i).getMinY) 0 = Option.some _
          rw [hpi]
          rfl
      | some j =>
          have := hd i j hpi
          omega
  | succ k ih =>
      intro i hk p
      cases hpi : H.parentOf i with
      | none =>
          refine ⟨1, step p (H.boundsOf i).getMinX (H.boundsOf i).getMinY, ?_⟩
          show H.convertFuel step (H.parentOf i)
              (step p (H.boundsOf i).getMinX (H.boundsOf i).getMinY) 0 = Option.some _
          rw [hpi]
          rfl
      | some j =>
          obtain ⟨n, r, hn⟩ :=
            ih j (by have := hd i j hpi; omega)
              (step p (H.boundsOf i).getMinX (H.boundsOf i).getMinY)
          refine ⟨n + 1, r, ?_⟩
          show H.convertFuel step (H.parentOf i)
              (step p (H.boundsOf i).getMinX (H.boundsOf i).getMinY) n = Option.some r
          rw [hpi]
          exact hn

/-- C7 amended: the parent-chain walk of localToGlobal and globalToLocal
terminates for every node and every point over any acyclic parent
assignment, witnessed by a depth measure that strictly decreases from
child to parent; since setParent performs no cycle check, the claim does
not hold for every constructible chain (see the counterexample), only for
the acyclic ones. -/
theorem coordinate_walk_terminates_acyclic (H : Heap) (depth : Nat → Nat)
    (hd : ∀ i j, H.parentOf i = Option.some j → depth j < depth i) (i : Nat) (p : Point) :
    (∃ n r, H.localToGlobalFuel (Option.some i) p n = Option.some r)
  ∧ (∃ n r, H.globalToLocalFuel (Option.some i) p n = Option.some r) :=
  ⟨convertFuel_terminates H Point.add depth hd (depth i) i (Nat.le_refl _) p,
   convertFuel_terminates H Point.subtract depth hd (depth i) i (Nat.le_refl _) p⟩

/-- Witness for the amended C7 on a heap where every parent reference is
null. -/
theorem coordinate_walk_terminates_acyclic_witness :
    (∃ n r, (Heap.mk (fun _ => Option.none) (fun _ => Bounds.mk 0 0 0 0)).localToGlobalFuel
        (Option.some 5) (Point.mk 1 2) n = Option.some r)
  ∧ (∃ n r, (Heap.mk (fun _ => Option.none) (fun _ => Bounds.mk 0 0 0 0)).globalToLocalFuel
        (Option.some 5) (Point.mk 1 2) n = Option.some r) :=
  coordinate_walk_terminates_acyclic
    (Heap.mk (fun _ => Option.none) (fun _ => Bounds.mk 0 0 0 0)) (fun _ => 0)
    (by intro i j hij; cases hij) 5 (Point.mk 1 2)

end Cardmaker
